import Mathlib

/-!
Shallow embedding of `iwvelando/daylight-timeseries` (src/main.go).

The repository holds two historically divergent implementations in one file:
the current one (influxdb-client-go/v2, the part of main.go before the
separator) and a legacy one (influxdb1-client, after the separator).  Both are
embedded here; definitions from the legacy part carry a `V1` suffix.

Modelling conventions:
* Go `time.Time` is modelled as a wall-clock record (year, month, day,
  second-of-day) under a fixed UTC offset (no DST): `Time.Add (-24h)` then
  decrements the civil date by exactly one day, and `Before`/`After` are the
  lexicographic order on the record, which coincides with instant order for
  valid fixed-offset wall clocks.  Go `t.Day()` is the day of the month.
* `sunrise.SunriseSunset` (external library) is an abstract parameter `calc`.
* Machine integers are `Int` with explicit two-sided truncation (`toInt32`,
  `toInt64`) exactly where Go converts or can overflow.
* Writing a point to the InfluxDB write API is modelled by returning the
  point value that the code hands to the client library.
-/

namespace DTS

/-- Wall-clock instant: Go `time.Time` under a fixed zone offset.
`sec` is the second within the day (0 ≤ sec < 86400 for valid clocks). -/
structure Time where
  year : Int
  month : Int
  day : Int
  sec : Int
deriving DecidableEq, Repr

/-- Strict instant order (lexicographic on the wall-clock record);
models Go `time.Time` comparison for fixed-offset wall clocks. -/
def Time.Lt (a b : Time) : Prop :=
  a.year < b.year ∨ (a.year = b.year ∧
    (a.month < b.month ∨ (a.month = b.month ∧
      (a.day < b.day ∨ (a.day = b.day ∧ a.sec < b.sec)))))

/-- Non-strict instant order. -/
def Time.Le (a b : Time) : Prop :=
  a.year < b.year ∨ (a.year = b.year ∧
    (a.month < b.month ∨ (a.month = b.month ∧
      (a.day < b.day ∨ (a.day = b.day ∧ a.sec ≤ b.sec)))))

instance (a b : Time) : Decidable (Time.Lt a b) := by
  unfold Time.Lt; infer_instance

instance (a b : Time) : Decidable (Time.Le a b) := by
  unfold Time.Le; infer_instance

/-- Go `t.Before(u)`. -/
def Time.before (a b : Time) : Bool := decide (Time.Lt a b)

/-- Go `t.After(u)`. -/
def Time.after (a b : Time) : Bool := decide (Time.Lt b a)

theorem Time.not_lt_iff_le (a b : Time) : ¬ Time.Lt a b ↔ Time.Le b a := by
  unfold Time.Lt Time.Le
  constructor <;> intro h <;> omega

theorem Time.le_trans {a b c : Time} (h1 : Time.Le a b) (h2 : Time.Le b c) :
    Time.Le a c := by
  unfold Time.Le at h1 h2 ⊢
  omega

/-- `func Daylight(sunrise time.Time, sunset time.Time, t time.Time) bool`
(src/main.go lines 193-199; the legacy copy at lines 351-357 is identical). -/
def Daylight (sunrise : Time) (sunset : Time) (t : Time) : Bool :=
  if t.before sunrise || t.after sunset then
    false
  else
    true

theorem Daylight_eq_true_iff (sunrise sunset t : Time) :
    Daylight sunrise sunset t = true ↔ (Time.Le sunrise t ∧ Time.Le t sunset) := by
  unfold Daylight Time.before Time.after
  constructor
  · intro h
    by_cases h1 : Time.Lt t sunrise
    · simp [h1] at h
    · by_cases h2 : Time.Lt sunset t
      · simp [h2] at h
      · exact ⟨(Time.not_lt_iff_le t sunrise).mp h1, (Time.not_lt_iff_le sunset t).mp h2⟩
  · intro ⟨h1, h2⟩
    have g1 : ¬ Time.Lt t sunrise := by
      rw [Time.not_lt_iff_le]; exact h1
    have g2 : ¬ Time.Lt sunset t := by
      rw [Time.not_lt_iff_le]; exact h2
    simp [g1, g2]

/-- Gregorian leap-year test (proleptic, as in Go `time`). -/
def isLeapYear (y : Int) : Bool :=
  (y % 4 == 0 && y % 100 != 0) || y % 400 == 0

/-- Number of days in a month of the Gregorian calendar. -/
def daysInMonth (y m : Int) : Int :=
  if m = 2 then (if isLeapYear y then 29 else 28)
  else if m = 4 ∨ m = 6 ∨ m = 9 ∨ m = 11 then 30
  else 31

/-- Go `t.Add(-24 * time.Hour)` under a fixed zone offset: the wall clock
moves back exactly one civil day, keeping the second within the day. -/
def Time.sub24h (t : Time) : Time :=
  if 2 ≤ t.day then ⟨t.year, t.month, t.day - 1, t.sec⟩
  else if 2 ≤ t.month then ⟨t.year, t.month - 1, daysInMonth t.year (t.month - 1), t.sec⟩
  else ⟨t.year - 1, 12, 31, t.sec⟩

/-- A well-formed wall clock: month 1..12, day within the month, second
within the day. -/
def Time.Valid (t : Time) : Prop :=
  1 ≤ t.month ∧ t.month ≤ 12 ∧ 1 ≤ t.day ∧ t.day ≤ daysInMonth t.year t.month ∧
    0 ≤ t.sec ∧ t.sec < 86400

instance (t : Time) : Decidable (Time.Valid t) := by
  unfold Time.Valid; infer_instance

/-- `type InfluxDB struct` (src/main.go lines 26-38). -/
structure InfluxDB where
  address : String
  username : String
  password : String
  measurementPrefix : String
  database : String
  retentionPolicy : String
  token : String
  organization : String
  bucket : String
  skipVerifySsl : Bool
  flushInterval : Nat

/-- `type Configuration struct` (src/main.go lines 19-24): the current
implementation.  `pollInterval` is a Go `time.Duration` (int64). -/
structure Configuration where
  latitude : Float
  longitude : Float
  pollInterval : Int
  influxDB : InfluxDB

/-- The abstract astronomical calculator `sunrise.SunriseSunset`
(external library): latitude, longitude, year, month, day ↦
(sunrise, sunset). -/
def Calc : Type := Float → Float → Int → Int → Int → Time × Time

/-- The staleness condition of `UpdateSunriseSunset` (src/main.go
lines 177-178): the cached sunrise or sunset has the same day of the
month as `t − 24h`. -/
def staleCheck (currentSunrise currentSunset t : Time) : Bool :=
  currentSunrise.day == (t.sub24h).day || currentSunset.day == (t.sub24h).day

/-- `func UpdateSunriseSunset(config, currentSunrise, currentSunset, t)`
(src/main.go lines 174-191), with the external calculator passed
explicitly. -/
def UpdateSunriseSunset (sunCalc : Calc) (config : Configuration)
    (currentSunrise currentSunset : Time) (t : Time) : Time × Time :=
  if staleCheck currentSunrise currentSunset t then
    sunCalc config.latitude config.longitude t.year t.month t.day
  else
    (currentSunrise, currentSunset)

/-- A field value of an InfluxDB point; the program only ever writes
boolean fields. -/
inductive FieldValue where
  | bool (b : Bool)
deriving DecidableEq, Repr

/-- The point handed to `influx.NewPoint` by the current implementation. -/
structure Point where
  measurement : String
  tags : List (String × String)
  fields : List (String × FieldValue)
  time : Time
deriving DecidableEq, Repr

/-- `func WriteToInflux(config, writeAPI, daylight, t)` (src/main.go lines
201-212, current implementation): returns the point the code submits to
the write API. -/
def WriteToInflux (_config : Configuration) (daylight : Bool) (t : Time) : Point :=
  { measurement := "daylight"
    tags := []
    fields := [("daylight", FieldValue.bool daylight)]
    time := t }

/-- `type Configuration struct` of the legacy implementation (src/main.go
lines 229-239, after the separator). -/
structure ConfigurationV1 where
  latitude : Float
  longitude : Float
  pollInterval : Int
  influxDBURL : String
  influxDBPort : Int
  influxDBMeasurement : String
  influxDBDatabase : String
  influxDBRetentionPolicy : String
  influxDBSkipVerifySsl : Bool

/-- An `influxdb.Point` of the legacy client. -/
structure PointV1 where
  measurement : String
  tags : List (String × String)
  fields : List (String × FieldValue)
  time : Time
  precision : String
deriving DecidableEq, Repr

/-- An `influxdb.BatchPoints` of the legacy client. -/
structure BatchPoints where
  points : List PointV1
  database : String
  retentionPolicy : String
deriving DecidableEq, Repr

/-- `func WriteToInflux(logger, config, influxConn, daylight, t)`
(src/main.go lines 359-382, legacy implementation): returns the batch the
code writes to the connection. -/
def WriteToInfluxV1 (config : ConfigurationV1) (daylight : Bool) (t : Time) :
    BatchPoints :=
  { points := [{ measurement := config.influxDBMeasurement
                 tags := []
                 fields := [("daylight", FieldValue.bool daylight)]
                 time := t
                 precision := "ns" }]
    database := config.influxDBDatabase
    retentionPolicy := config.influxDBRetentionPolicy }

/-- `type InfluxWriteConfigError struct{}` (src/main.go lines 60-64). -/
inductive ConnectError where
  | influxWriteConfig
deriving DecidableEq, Repr

/-- The observable outcome of building the InfluxDB client and write API:
the auth string, the write destination, and the client options the code
sets (src/main.go lines 89-96). -/
structure ConnectResult where
  auth : String
  writeDest : String
  flushIntervalMs : Nat
  insecureSkipVerify : Bool
  organization : String
  address : String
deriving DecidableEq, Repr

/-- The `auth` string computed at src/main.go lines 67-74. -/
def influxAuth (config : Configuration) : String :=
  if config.influxDB.token != "" then
    config.influxDB.token
  else if config.influxDB.username != "" && config.influxDB.password != "" then
    config.influxDB.username ++ ":" ++ config.influxDB.password
  else
    ""

/-- The `writeDest` string computed at src/main.go lines 76-83; `none`
models the early error return. -/
def influxWriteDest (config : Configuration) : Option String :=
  if config.influxDB.bucket != "" then
    some config.influxDB.bucket
  else if config.influxDB.database != "" && config.influxDB.retentionPolicy != "" then
    some (config.influxDB.database ++ "/" ++ config.influxDB.retentionPolicy)
  else
    none

/-- The flush-interval default applied at src/main.go lines 85-87. -/
def flushedConfig (config : Configuration) : Configuration :=
  if config.influxDB.flushInterval = 0 then
    { config with influxDB := { config.influxDB with flushInterval := 30 } }
  else
    config

/-- The client options and write API arguments set at src/main.go lines
89-96 (after the flush-interval default was applied). -/
def connectResult (config : Configuration) (writeDest : String) : ConnectResult :=
  { auth := influxAuth config
    writeDest := writeDest
    flushIntervalMs := 1000 * (flushedConfig config).influxDB.flushInterval % 2 ^ 64
    insecureSkipVerify := (flushedConfig config).influxDB.skipVerifySsl
    organization := (flushedConfig config).influxDB.organization
    address := (flushedConfig config).influxDB.address }

/-- `func InfluxConnect(config *Configuration)` (src/main.go lines 66-99).
The function mutates `config.InfluxDB.FlushInterval` through the pointer;
the model returns the mutated configuration alongside the result. -/
def InfluxConnect (config : Configuration) :
    Except ConnectError (ConnectResult × Configuration) :=
  match influxWriteDest config with
  | none => Except.error ConnectError.influxWriteConfig
  | some writeDest => Except.ok (connectResult config writeDest, flushedConfig config)

/-- Go conversion to `int32`: truncate to 32 bits, two's complement. -/
def toInt32 (n : Int) : Int := (n + 2 ^ 31) % 2 ^ 32 - 2 ^ 31

/-- Go arithmetic on `int64` / `time.Duration`: wrap to 64 bits, two's
complement. -/
def toInt64 (n : Int) : Int := (n + 2 ^ 63) % 2 ^ 64 - 2 ^ 63

/-- `timeElapsed := int32(time.Now().Unix()) - pollStartTime` (src/main.go
lines 153 and 160): both Unix second counts are converted to `int32` and
subtracted in `int32` arithmetic.  `tStart` and `tEnd` are the true Unix
second counts at the start and end of the cycle. -/
def timeElapsed (tStart tEnd : Int) : Int :=
  toInt32 (toInt32 tEnd - toInt32 tStart)

/-- The duration (nanoseconds) passed to `time.Sleep` at src/main.go line
161: `config.PollInterval*time.Second - time.Duration(timeElapsed)*time.Second`,
all in `int64` (`time.Duration`) arithmetic. -/
def pollCycleSleepArgNs (pollInterval tStart tEnd : Int) : Int :=
  toInt64 (toInt64 (pollInterval * 1000000000) -
    toInt64 (timeElapsed tStart tEnd * 1000000000))

/-- Go `time.Sleep`: a negative or zero duration returns immediately, so
the time actually slept is the argument clamped to zero. -/
def timeSleep (d : Int) : Int := max 0 d

/-- Nanoseconds actually slept after a poll cycle. -/
def actualSleepNs (pollInterval tStart tEnd : Int) : Int :=
  timeSleep (pollCycleSleepArgNs pollInterval tStart tEnd)

/-- Shift a wall clock by a number of minutes within the same day (used
only where the result stays inside the day). -/
def Time.addMinutes (t : Time) (m : Int) : Time :=
  ⟨t.year, t.month, t.day, t.sec + 60 * m⟩

/-- Modelled from the spec: the Daylight Evaluator with the configured
`timeOffset` (spec §4.2 and config.yaml.example), which the current code
does not implement — `Configuration` (src/main.go lines 19-24) has no
timeOffset field and `Daylight` applies no offset.  Effective sunrise =
sunrise + offset, effective sunset = sunset − offset, inclusive bounds. -/
def isDaylightSpec (sunrise sunset : Time) (offsetMinutes : Int) (t : Time) : Bool :=
  decide (Time.Le (sunrise.addMinutes offsetMinutes) t ∧
    Time.Le t (sunset.addMinutes (-offsetMinutes)))

/-- Spec-side notion used by claim C2: two instants lie on the same
calendar day (same year, month and day of month). -/
def sameCalendarDay (a b : Time) : Prop :=
  a.year = b.year ∧ a.month = b.month ∧ a.day = b.day

instance (a b : Time) : Decidable (sameCalendarDay a b) := by
  unfold sameCalendarDay; infer_instance

/-- A concrete astronomical calculator for witnesses: sunrise 06:30 and
sunset 19:45 (in seconds of day) on the requested date. -/
def calcDemo : Calc := fun _ _ y m d => (⟨y, m, d, 23400⟩, ⟨y, m, d, 71100⟩)

/-- A concrete InfluxDB configuration (values of config.yaml.example). -/
def influxDemo : InfluxDB :=
  ⟨"https://127.0.0.1:8086", "myuser", "mypass", "prefix_", "mydb", "autogen",
    "mytoken", "myorg", "mybucket", false, 0⟩

/-- A concrete configuration for witnesses. -/
def cfgDemo : Configuration := ⟨40.0, -105.0, 60, influxDemo⟩

/-- An InfluxDB configuration with no bucket and no database. -/
def influxNoDest : InfluxDB :=
  ⟨"https://127.0.0.1:8086", "", "", "", "", "autogen", "", "", "", false, 0⟩

/-- A configuration with no write destination. -/
def cfgNoDest : Configuration := ⟨40.0, -105.0, 60, influxNoDest⟩

/-- A concrete legacy configuration whose measurement name is not
"daylight". -/
def cfgV1Demo : ConfigurationV1 :=
  ⟨40.0, -105.0, 60, "https://127.0.0.1", 8086, "temperature", "mydb", "autogen", false⟩

/-- Claim C1 (code_bug evaluation): with sunrise 06:30, sunset 19:45 and the
documented 30-minute timeOffset, the code evaluates 06:44 as daylight —
`Daylight` ignores the offset that config.yaml.example documents and that
the spec describes, because `Configuration` has no timeOffset field.  The
spec-modelled evaluator returns false at the same input. -/
theorem daylight_offset_code_bug :
    Daylight ⟨2024, 6, 1, 23400⟩ ⟨2024, 6, 1, 71100⟩ ⟨2024, 6, 1, 24240⟩ = true ∧
      isDaylightSpec ⟨2024, 6, 1, 23400⟩ ⟨2024, 6, 1, 71100⟩ 30 ⟨2024, 6, 1, 24240⟩ = false := by
  decide

/-- Claim C2 (counterexample): the staleness test is not calendar-day
equality.  A window cached for 2024-01-15, checked at noon of 2024-03-16,
shares no calendar day with `now − 24h` (2024-03-15), yet
`UpdateSunriseSunset` replaces it, because Go `Day()` compares only the
day of the month (15 == 15). -/
theorem staleness_not_calendar_day :
    ¬ sameCalendarDay ⟨2024, 1, 15, 25200⟩ (Time.sub24h ⟨2024, 3, 16, 43200⟩) ∧
      ¬ sameCalendarDay ⟨2024, 1, 15, 61200⟩ (Time.sub24h ⟨2024, 3, 16, 43200⟩) ∧
      UpdateSunriseSunset calcDemo cfgDemo ⟨2024, 1, 15, 25200⟩ ⟨2024, 1, 15, 61200⟩
          ⟨2024, 3, 16, 43200⟩ ≠
        (⟨2024, 1, 15, 25200⟩, ⟨2024, 1, 15, 61200⟩) := by
  refine ⟨by decide, by decide, ?_⟩
  decide

/-- Claim C2 (amended): `UpdateSunriseSunset` replaces the window with the
calculator result for the year, month and day of `now` exactly when the
day of the month of the cached sunrise or of the cached sunset equals the
day of the month of `now − 24h`; otherwise it returns the cached window
unchanged. -/
theorem updateSunriseSunset_day_of_month (sunCalc : Calc) (config : Configuration)
    (currentSunrise currentSunset t : Time) :
    ((currentSunrise.day = (t.sub24h).day ∨ currentSunset.day = (t.sub24h).day) →
        UpdateSunriseSunset sunCalc config currentSunrise currentSunset t =
          sunCalc config.latitude config.longitude t.year t.month t.day) ∧
      (¬ (currentSunrise.day = (t.sub24h).day ∨ currentSunset.day = (t.sub24h).day) →
        UpdateSunriseSunset sunCalc config currentSunrise currentSunset t =
          (currentSunrise, currentSunset)) := by
  unfold UpdateSunriseSunset staleCheck
  constructor
  · intro h
    have hb : (currentSunrise.day == (t.sub24h).day ||
        currentSunset.day == (t.sub24h).day) = true := by
      rcases h with h | h <;> simp [h]
    rw [hb]
    simp
  · intro h
    push_neg at h
    have hb : (currentSunrise.day == (t.sub24h).day ||
        currentSunset.day == (t.sub24h).day) = false := by
      simp [h.1, h.2]
    rw [hb]
    simp

/-- Witness for C2 at concrete inputs: a window whose sunset day of month
matches yesterday is replaced; a window for the current day is returned
unchanged. -/
theorem updateSunriseSunset_day_of_month_witness :
    UpdateSunriseSunset calcDemo cfgDemo ⟨2024, 1, 15, 25200⟩ ⟨2024, 1, 15, 61200⟩
        ⟨2024, 3, 16, 43200⟩ =
      calcDemo cfgDemo.latitude cfgDemo.longitude 2024 3 16 ∧
    UpdateSunriseSunset calcDemo cfgDemo ⟨2024, 3, 16, 23400⟩ ⟨2024, 3, 16, 71100⟩
        ⟨2024, 3, 16, 43200⟩ =
      (⟨2024, 3, 16, 23400⟩, ⟨2024, 3, 16, 71100⟩) :=
  ⟨(updateSunriseSunset_day_of_month calcDemo cfgDemo _ _ _).1 (by decide),
   (updateSunriseSunset_day_of_month calcDemo cfgDemo _ _ _).2 (by decide)⟩

/-- Claim C4: `Daylight` returns true exactly when the timestamp lies in
the closed interval from sunrise to sunset; when sunrise is after sunset
the interval is empty and every timestamp evaluates to false. -/
theorem Daylight_closed_interval (sunrise sunset t : Time) :
    (Daylight sunrise sunset t = true ↔ (Time.Le sunrise t ∧ Time.Le t sunset)) ∧
      (Time.Lt sunset sunrise → Daylight sunrise sunset t = false) := by
  refine ⟨Daylight_eq_true_iff sunrise sunset t, ?_⟩
  intro hlt
  rcases hb : Daylight sunrise sunset t with _ | _
  · rfl
  · exfalso
    have ⟨h1, h2⟩ := (Daylight_eq_true_iff sunrise sunset t).mp hb
    exact (Time.not_lt_iff_le sunset sunrise).mpr (Time.le_trans h1 h2) hlt

/-- Witness for C4: the interval bounds count as daylight, and an
inverted window is empty. -/
theorem Daylight_closed_interval_witness :
    Daylight ⟨2024, 6, 1, 23400⟩ ⟨2024, 6, 1, 71100⟩ ⟨2024, 6, 1, 23400⟩ = true ∧
      Daylight ⟨2024, 6, 1, 71100⟩ ⟨2024, 6, 1, 23400⟩ ⟨2024, 6, 1, 43200⟩ = false :=
  ⟨(Daylight_closed_interval ⟨2024, 6, 1, 23400⟩ ⟨2024, 6, 1, 71100⟩
      ⟨2024, 6, 1, 23400⟩).1.mpr ⟨by decide, by decide⟩,
   (Daylight_closed_interval ⟨2024, 6, 1, 71100⟩ ⟨2024, 6, 1, 23400⟩
      ⟨2024, 6, 1, 43200⟩).2 (by decide)⟩

/-- Claim C7: for a fixed window the set of timestamps evaluating to true
is convex — between any two daylight instants every instant is daylight —
so the result changes false → true → false at most once and never
oscillates. -/
theorem Daylight_convex (sunrise sunset t1 t2 t3 : Time)
    (h12 : Time.Le t1 t2) (h23 : Time.Le t2 t3)
    (h1 : Daylight sunrise sunset t1 = true)
    (h3 : Daylight sunrise sunset t3 = true) :
    Daylight sunrise sunset t2 = true := by
  have ⟨ha, _⟩ := (Daylight_eq_true_iff sunrise sunset t1).mp h1
  have ⟨_, hb⟩ := (Daylight_eq_true_iff sunrise sunset t3).mp h3
  exact (Daylight_eq_true_iff sunrise sunset t2).mpr
    ⟨Time.le_trans ha h12, Time.le_trans h23 hb⟩

/-- Witness for C7 at concrete instants 09:00 ≤ 12:00 ≤ 15:00 inside the
window. -/
theorem Daylight_convex_witness :
    Daylight ⟨2024, 6, 1, 23400⟩ ⟨2024, 6, 1, 71100⟩ ⟨2024, 6, 1, 43200⟩ = true :=
  Daylight_convex ⟨2024, 6, 1, 23400⟩ ⟨2024, 6, 1, 71100⟩
    ⟨2024, 6, 1, 32400⟩ ⟨2024, 6, 1, 43200⟩ ⟨2024, 6, 1, 54000⟩
    (by decide) (by decide) (by decide) (by decide)

theorem daysInMonth_ge_28 (y m : Int) : 28 ≤ daysInMonth y m := by
  unfold daysInMonth
  split
  · split <;> omega
  · split <;> omega

/-- For a valid wall clock, moving back 24 hours changes the day of the
month. -/
theorem sub24h_day_ne {t : Time} (ht : t.Valid) : (t.sub24h).day ≠ t.day := by
  obtain ⟨hm1, hm2, hd1, hd2, _, _⟩ := ht
  unfold Time.sub24h
  split
  · simp only
    omega
  · split
    · simp only
      have := daysInMonth_ge_28 t.year (t.month - 1)
      omega
    · simp only
      omega

/-- Claim C5: `UpdateSunriseSunset` is idempotent with respect to
calculator calls.  Under the calculator contract (the returned instants
lie on the requested calendar date) and for a valid `now`, the window
produced by one application is never stale for the same `now` — the
staleness test on it is false, so a second application issues no
calculator call and returns the window unchanged. -/
theorem updateSunriseSunset_idempotent (sunCalc : Calc)
    (hcalc : ∀ lat lon y m d,
      sameCalendarDay (sunCalc lat lon y m d).1 ⟨y, m, d, 0⟩ ∧
        sameCalendarDay (sunCalc lat lon y m d).2 ⟨y, m, d, 0⟩)
    (config : Configuration) (currentSunrise currentSunset t : Time)
    (ht : t.Valid) :
    staleCheck (UpdateSunriseSunset sunCalc config currentSunrise currentSunset t).1
        (UpdateSunriseSunset sunCalc config currentSunrise currentSunset t).2 t = false ∧
      UpdateSunriseSunset sunCalc config
          (UpdateSunriseSunset sunCalc config currentSunrise currentSunset t).1
          (UpdateSunriseSunset sunCalc config currentSunrise currentSunset t).2 t =
        UpdateSunriseSunset sunCalc config currentSunrise currentSunset t := by
  have hday := sub24h_day_ne ht
  by_cases hs : staleCheck currentSunrise currentSunset t
  · have h1 := (hcalc config.latitude config.longitude t.year t.month t.day).1.2.2
    have h2 := (hcalc config.latitude config.longitude t.year t.month t.day).2.2.2
    have hfresh : staleCheck
        (sunCalc config.latitude config.longitude t.year t.month t.day).1
        (sunCalc config.latitude config.longitude t.year t.month t.day).2 t = false := by
      simp only [staleCheck, Bool.or_eq_false_iff, beq_eq_false_iff_ne]
      rw [h1, h2]
      exact ⟨fun h => hday h.symm, fun h => hday h.symm⟩
    constructor
    · simp only [UpdateSunriseSunset, hs, if_true]
      exact hfresh
    · simp only [UpdateSunriseSunset, hs, if_true] at hfresh ⊢
      rw [hfresh]
      simp
  · have hs' : staleCheck currentSunrise currentSunset t = false :=
      Bool.not_eq_true _ ▸ (by simpa using hs)
    constructor
    · simp [UpdateSunriseSunset, hs']
    · simp [UpdateSunriseSunset, hs']

/-- Witness for C5: after refreshing a stale January window at noon of
2024-03-16, the refreshed window is not stale and a second application
returns it unchanged. -/
theorem updateSunriseSunset_idempotent_witness :
    staleCheck
        (UpdateSunriseSunset calcDemo cfgDemo ⟨2024, 1, 15, 25200⟩ ⟨2024, 1, 15, 61200⟩
          ⟨2024, 3, 16, 43200⟩).1
        (UpdateSunriseSunset calcDemo cfgDemo ⟨2024, 1, 15, 25200⟩ ⟨2024, 1, 15, 61200⟩
          ⟨2024, 3, 16, 43200⟩).2 ⟨2024, 3, 16, 43200⟩ = false ∧
      UpdateSunriseSunset calcDemo cfgDemo
          (UpdateSunriseSunset calcDemo cfgDemo ⟨2024, 1, 15, 25200⟩ ⟨2024, 1, 15, 61200⟩
            ⟨2024, 3, 16, 43200⟩).1
          (UpdateSunriseSunset calcDemo cfgDemo ⟨2024, 1, 15, 25200⟩ ⟨2024, 1, 15, 61200⟩
            ⟨2024, 3, 16, 43200⟩).2 ⟨2024, 3, 16, 43200⟩ =
        UpdateSunriseSunset calcDemo cfgDemo ⟨2024, 1, 15, 25200⟩ ⟨2024, 1, 15, 61200⟩
          ⟨2024, 3, 16, 43200⟩ :=
  updateSunriseSunset_idempotent calcDemo
    (fun _ _ _ _ _ => ⟨⟨rfl, rfl, rfl⟩, ⟨rfl, rfl, rfl⟩⟩) cfgDemo
    ⟨2024, 1, 15, 25200⟩ ⟨2024, 1, 15, 61200⟩ ⟨2024, 3, 16, 43200⟩ (by decide)

theorem toInt32_bounds (n : Int) : -2 ^ 31 ≤ toInt32 n ∧ toInt32 n < 2 ^ 31 := by
  unfold toInt32
  have h1 : 0 ≤ (n + 2 ^ 31) % 2 ^ 32 := Int.emod_nonneg _ (by norm_num)
  have h2 : (n + 2 ^ 31) % 2 ^ 32 < 2 ^ 32 := Int.emod_lt_of_pos _ (by norm_num)
  omega

theorem toInt32_shift (n : Int) : ∃ k : Int, toInt32 n = n + 2 ^ 32 * k := by
  refine ⟨-((n + 2 ^ 31) / 2 ^ 32), ?_⟩
  rw [toInt32, Int.emod_def]
  ring

theorem toInt32_eq_self {n : Int} (h1 : -2 ^ 31 ≤ n) (h2 : n < 2 ^ 31) :
    toInt32 n = n := by
  obtain ⟨k, hk⟩ := toInt32_shift n
  have hb := toInt32_bounds n
  omega

theorem toInt64_bounds (n : Int) : -2 ^ 63 ≤ toInt64 n ∧ toInt64 n < 2 ^ 63 := by
  unfold toInt64
  have h1 : 0 ≤ (n + 2 ^ 63) % 2 ^ 64 := Int.emod_nonneg _ (by norm_num)
  have h2 : (n + 2 ^ 63) % 2 ^ 64 < 2 ^ 64 := Int.emod_lt_of_pos _ (by norm_num)
  omega

theorem toInt64_eq_self {n : Int} (h1 : -2 ^ 63 ≤ n) (h2 : n < 2 ^ 63) :
    toInt64 n = n := by
  have hsh : ∃ k : Int, toInt64 n = n + 2 ^ 64 * k := by
    refine ⟨-((n + 2 ^ 63) / 2 ^ 64), ?_⟩
    rw [toInt64, Int.emod_def]
    ring
  obtain ⟨k, hk⟩ := hsh
  have hb := toInt64_bounds n
  omega

/-- The `int32` wrap-around cancels in the subtraction: whenever the true
elapsed seconds fit in `int32`, the computed elapsed equals the true
elapsed, regardless of how large the Unix second counts themselves are. -/
theorem timeElapsed_eq {tStart tEnd : Int} (h1 : -2 ^ 31 ≤ tEnd - tStart)
    (h2 : tEnd - tStart < 2 ^ 31) : timeElapsed tStart tEnd = tEnd - tStart := by
  obtain ⟨k1, hk1⟩ := toInt32_shift tEnd
  obtain ⟨k2, hk2⟩ := toInt32_shift tStart
  obtain ⟨k3, hk3⟩ := toInt32_shift (toInt32 tEnd - toInt32 tStart)
  have hb := toInt32_bounds (toInt32 tEnd - toInt32 tStart)
  unfold timeElapsed
  omega

/-- Claim C6: for a cycle whose true elapsed seconds fit in `int32` and a
poll interval up to 2^31 seconds, the time slept after the cycle is
exactly `max 0 (pollInterval − elapsed)` (in nanoseconds): a negative
argument makes `time.Sleep` return immediately, so an overrunning cycle
sleeps 0 and the next cycle starts at once. -/
theorem poll_sleep_max_zero (pollInterval tStart tEnd : Int)
    (hp0 : 0 ≤ pollInterval) (hp1 : pollInterval ≤ 2 ^ 31)
    (he0 : 0 ≤ tEnd - tStart) (he1 : tEnd - tStart < 2 ^ 31) :
    actualSleepNs pollInterval tStart tEnd =
      1000000000 * max 0 (pollInterval - (tEnd - tStart)) := by
  have ht := timeElapsed_eq (by omega) he1
  unfold actualSleepNs pollCycleSleepArgNs timeSleep
  rw [ht]
  have ha : toInt64 (pollInterval * 1000000000) = pollInterval * 1000000000 :=
    toInt64_eq_self (by omega) (by omega)
  have hb : toInt64 ((tEnd - tStart) * 1000000000) = (tEnd - tStart) * 1000000000 :=
    toInt64_eq_self (by omega) (by omega)
  rw [ha, hb]
  have hc : toInt64 (pollInterval * 1000000000 - (tEnd - tStart) * 1000000000) =
      pollInterval * 1000000000 - (tEnd - tStart) * 1000000000 :=
    toInt64_eq_self (by omega) (by omega)
  rw [hc]
  omega

/-- Witness for C6: the scenarios of the spec — a 5-second cycle with a
60-second interval sleeps 55 seconds; a 65-second cycle sleeps 0. -/
theorem poll_sleep_max_zero_witness :
    actualSleepNs 60 1000 1005 = 1000000000 * max 0 (60 - (1005 - 1000)) ∧
      actualSleepNs 60 1000 1065 = 1000000000 * max 0 (60 - (1065 - 1000)) :=
  ⟨poll_sleep_max_zero 60 1000 1005 (by decide) (by decide) (by decide) (by decide),
   poll_sleep_max_zero 60 1000 1065 (by decide) (by decide) (by decide) (by decide)⟩

/-- Claim C10 (counterexample): at Unix second 2^31 the `int32` conversion
does wrap (`toInt32 (2^31) = -2^31`), yet the computed sleep is not
corrupted: a 5-second cycle starting at 2^31 with a 60-second interval
still sleeps exactly 55 seconds, because the wrap cancels in the
subtraction. -/
theorem int32_wrap_sleep_not_corrupted :
    toInt32 (2 ^ 31) = -2 ^ 31 ∧
      actualSleepNs 60 (2 ^ 31) (2 ^ 31 + 5) = 55000000000 := by
  constructor
  · decide
  · decide

/-- Claim C10 (amended): elapsed time is the difference of Unix second
counts truncated to `int32`, so it has one-second granularity and a cycle
finishing in the same clock second sleeps the full interval; at or beyond
Unix second 2^31 the conversion wraps modulo 2^32 (the converted value
differs from the true one by a multiple of 2^32), but the `int32`
subtraction cancels the wrap, so the computed sleep remains
`max 0 (pollInterval − elapsed)` whenever the true elapsed is below 2^31
seconds. -/
theorem elapsed_int32_wrap (pollInterval tStart tEnd : Int)
    (hp0 : 0 ≤ pollInterval) (hp1 : pollInterval ≤ 2 ^ 31)
    (hs : 2 ^ 31 ≤ tStart) (he0 : 0 ≤ tEnd - tStart) (he1 : tEnd - tStart < 2 ^ 31) :
    toInt32 tStart ≠ tStart ∧
      (2 ^ 32 : Int) ∣ (toInt32 tStart - tStart) ∧
      timeElapsed tStart tEnd = tEnd - tStart ∧
      (tEnd = tStart → actualSleepNs pollInterval tStart tEnd =
        1000000000 * pollInterval) ∧
      actualSleepNs pollInterval tStart tEnd =
        1000000000 * max 0 (pollInterval - (tEnd - tStart)) := by
  have hb := toInt32_bounds tStart
  obtain ⟨k, hk⟩ := toInt32_shift tStart
  have hsleep : actualSleepNs pollInterval tStart tEnd =
      1000000000 * max 0 (pollInterval - (tEnd - tStart)) := by
    have ht : timeElapsed tStart tEnd = tEnd - tStart := timeElapsed_eq (by omega) he1
    unfold actualSleepNs pollCycleSleepArgNs timeSleep
    rw [ht]
    have ha : toInt64 (pollInterval * 1000000000) = pollInterval * 1000000000 :=
      toInt64_eq_self (by omega) (by omega)
    have hb' : toInt64 ((tEnd - tStart) * 1000000000) = (tEnd - tStart) * 1000000000 :=
      toInt64_eq_self (by omega) (by omega)
    rw [ha, hb']
    have hc : toInt64 (pollInterval * 1000000000 - (tEnd - tStart) * 1000000000) =
        pollInterval * 1000000000 - (tEnd - tStart) * 1000000000 :=
      toInt64_eq_self (by omega) (by omega)
    rw [hc]
    omega
  refine ⟨by omega, ⟨k, by omega⟩, timeElapsed_eq (by omega) he1, ?_, hsleep⟩
  intro heq
  rw [hsleep, heq]
  omega

/-- Witness for C10 at Unix second 2^31: the conversion wraps, the
computed elapsed of a 5-second cycle is still 5, the sleep is still
correct, and a same-second cycle sleeps the full interval. -/
theorem elapsed_int32_wrap_witness :
    timeElapsed (2 ^ 31) (2 ^ 31 + 5) = (2 ^ 31 + 5) - 2 ^ 31 ∧
      actualSleepNs 60 (2 ^ 31) (2 ^ 31 + 5) =
        1000000000 * max 0 (60 - ((2 ^ 31 + 5) - 2 ^ 31)) ∧
      actualSleepNs 60 (2 ^ 31) (2 ^ 31) = 1000000000 * 60 :=
  ⟨(elapsed_int32_wrap 60 (2 ^ 31) (2 ^ 31 + 5) (by decide) (by decide) (by decide)
      (by decide) (by decide)).2.2.1,
   (elapsed_int32_wrap 60 (2 ^ 31) (2 ^ 31 + 5) (by decide) (by decide) (by decide)
      (by decide) (by decide)).2.2.2.2,
   (elapsed_int32_wrap 60 (2 ^ 31) (2 ^ 31) (by decide) (by decide) (by decide)
      (by decide) (by decide)).2.2.2.1 rfl⟩

/-- Claim C8 (counterexample): the legacy `WriteToInflux` (src/main.go
lines 359-382) does not use a fixed measurement name — it submits the
configured `InfluxDBMeasurement`, here "temperature". -/
theorem writeToInfluxV1_measurement_configurable :
    (WriteToInfluxV1 cfgV1Demo true ⟨2024, 6, 1, 43200⟩).points =
        [{ measurement := "temperature"
           tags := []
           fields := [("daylight", FieldValue.bool true)]
           time := ⟨2024, 6, 1, 43200⟩
           precision := "ns" }] ∧
      "temperature" ≠ "daylight" :=
  ⟨rfl, by decide⟩

/-- Claim C8 (amended): the current `WriteToInflux` submits a point with
the fixed measurement "daylight", empty tags, exactly one boolean field
named "daylight" equal to the evaluation result, and the cycle timestamp;
the legacy `WriteToInflux` submits the same tags, field and timestamp but
uses the configured measurement name instead of a fixed one. -/
theorem write_points_shape (config : Configuration) (configV1 : ConfigurationV1)
    (daylight : Bool) (t : Time) :
    WriteToInflux config daylight t =
        { measurement := "daylight"
          tags := []
          fields := [("daylight", FieldValue.bool daylight)]
          time := t } ∧
      WriteToInfluxV1 configV1 daylight t =
        { points := [{ measurement := configV1.influxDBMeasurement
                       tags := []
                       fields := [("daylight", FieldValue.bool daylight)]
                       time := t
                       precision := "ns" }]
          database := configV1.influxDBDatabase
          retentionPolicy := configV1.influxDBRetentionPolicy } :=
  ⟨rfl, rfl⟩

/-- Claim C9: `InfluxConnect` returns the write-configuration error exactly
when the bucket is empty and the database or the retention policy is
empty; otherwise it succeeds, and the returned (mutated) configuration has
flush interval 30 when the configured value was 0 and the configured value
otherwise. -/
theorem influxConnect_error_iff (config : Configuration) :
    (InfluxConnect config = Except.error ConnectError.influxWriteConfig ↔
        (config.influxDB.bucket = "" ∧
          (config.influxDB.database = "" ∨ config.influxDB.retentionPolicy = ""))) ∧
      (¬ (config.influxDB.bucket = "" ∧
            (config.influxDB.database = "" ∨ config.influxDB.retentionPolicy = "")) →
        ∃ r cfg', InfluxConnect config = Except.ok (r, cfg') ∧
          cfg'.influxDB.flushInterval =
            (if config.influxDB.flushInterval = 0 then 30
             else config.influxDB.flushInterval)) := by
  have hflush : (flushedConfig config).influxDB.flushInterval =
      (if config.influxDB.flushInterval = 0 then 30
       else config.influxDB.flushInterval) := by
    by_cases hf : config.influxDB.flushInterval = 0 <;> simp [flushedConfig, hf]
  by_cases hb : config.influxDB.bucket = ""
  · by_cases hd : config.influxDB.database = ""
    · have hw : influxWriteDest config = none := by
        simp [influxWriteDest, hb, hd]
      constructor
      · simp [InfluxConnect, hw, hb, hd]
      · intro h
        exact absurd ⟨hb, Or.inl hd⟩ h
    · by_cases hr : config.influxDB.retentionPolicy = ""
      · have hw : influxWriteDest config = none := by
          simp [influxWriteDest, hb, hd, hr]
        constructor
        · simp [InfluxConnect, hw, hb, hr]
        · intro h
          exact absurd ⟨hb, Or.inr hr⟩ h
      · have hw : influxWriteDest config =
            some (config.influxDB.database ++ "/" ++ config.influxDB.retentionPolicy) := by
          simp [influxWriteDest, hb, hd, hr]
        constructor
        · simp [InfluxConnect, hw, hb, hd, hr]
        · intro _
          exact ⟨connectResult config
              (config.influxDB.database ++ "/" ++ config.influxDB.retentionPolicy),
            flushedConfig config, by simp [InfluxConnect, hw], hflush⟩
  · have hw : influxWriteDest config = some config.influxDB.bucket := by
      simp [influxWriteDest, hb]
    constructor
    · simp [InfluxConnect, hw, hb]
    · intro _
      exact ⟨connectResult config config.influxDB.bucket,
        flushedConfig config, by simp [InfluxConnect, hw], hflush⟩

/-- Witness for C9: a configuration with no bucket and no database fails
with the write-configuration error; the demo configuration (bucket set,
flush interval 0) succeeds and its flush interval is set to 30. -/
theorem influxConnect_error_iff_witness :
    InfluxConnect cfgNoDest = Except.error ConnectError.influxWriteConfig ∧
      ∃ r cfg', InfluxConnect cfgDemo = Except.ok (r, cfg') ∧
        cfg'.influxDB.flushInterval =
          (if cfgDemo.influxDB.flushInterval = 0 then 30
           else cfgDemo.influxDB.flushInterval) :=
  ⟨(influxConnect_error_iff cfgNoDest).1.mpr ⟨rfl, Or.inl rfl⟩,
   (influxConnect_error_iff cfgDemo).2 (by decide)⟩

end DTS
